import Mathlib

/-!
Verification of the health-monitoring core of the Medical_app repository.

The embedded functions follow `src/core/health_data.py`
(`calculate_health_score`) and `src/core/ml_models.py`
(`HealthRiskClassifier.create_risk_labels`, applied per row, and
`HealthRecommendationEngine.generate_recommendations`).

Vitals are modelled as rational numbers: heart rate and blood oxygen are
integers in practice but the Python code treats all three channels as
ordered numerics, and temperature carries one decimal place.
-/

/-- A health record restricted to the three vital channels the scoring and
classification functions read.  All channels present and numeric. -/
structure HealthRecord where
  heart_rate : ℚ
  blood_oxygen : ℚ
  temperature : ℚ
deriving DecidableEq, Repr

/-- `calculate_health_score` from `src/core/health_data.py`: start at 100,
subtract a penalty per channel chosen by the if/elif/else cascade, then
clamp to [0, 100]. -/
def calculate_health_score (row : HealthRecord) : ℤ :=
  let score : ℤ := 100
  let score : ℤ :=
    if 60 ≤ row.heart_rate ∧ row.heart_rate ≤ 100 then score + 0
    else if (50 ≤ row.heart_rate ∧ row.heart_rate < 60) ∨
            (100 < row.heart_rate ∧ row.heart_rate ≤ 120) then score - 10
    else score - 25
  let score : ℤ :=
    if row.blood_oxygen ≥ 95 then score + 0
    else if 90 ≤ row.blood_oxygen ∧ row.blood_oxygen < 95 then score - 15
    else score - 30
  let score : ℤ :=
    if 36.1 ≤ row.temperature ∧ row.temperature ≤ 37.2 then score + 0
    else if (35.5 ≤ row.temperature ∧ row.temperature < 36.1) ∨
            (37.2 < row.temperature ∧ row.temperature ≤ 38.0) then score - 10
    else score - 20
  max 0 (min 100 score)

/-- Heart-rate penalty of the health score, isolated from the cascade in
`calculate_health_score`. -/
def hrPenalty (hr : ℚ) : ℤ :=
  if 60 ≤ hr ∧ hr ≤ 100 then 0
  else if (50 ≤ hr ∧ hr < 60) ∨ (100 < hr ∧ hr ≤ 120) then 10
  else 25

/-- Blood-oxygen penalty of the health score, isolated from the cascade in
`calculate_health_score`. -/
def spo2Penalty (bo : ℚ) : ℤ :=
  if bo ≥ 95 then 0
  else if 90 ≤ bo ∧ bo < 95 then 15
  else 30

/-- Temperature penalty of the health score, isolated from the cascade in
`calculate_health_score`. -/
def tempPenalty (t : ℚ) : ℤ :=
  if 36.1 ≤ t ∧ t ≤ 37.2 then 0
  else if (35.5 ≤ t ∧ t < 36.1) ∨ (37.2 < t ∧ t ≤ 38.0) then 10
  else 20

/-- The health score decomposes as the clamp of 100 minus the sum of the
three per-channel penalties. -/
theorem calculate_health_score_decomp (row : HealthRecord) :
    calculate_health_score row =
      max 0 (min 100 (100 - (hrPenalty row.heart_rate +
        spo2Penalty row.blood_oxygen + tempPenalty row.temperature))) := by
  unfold calculate_health_score hrPenalty spo2Penalty tempPenalty
  split_ifs <;> ring_nf

/-- Reference definition of the health score as worded in section 4.1 of
the spec: start at 100; subtract 10 for a moderate heart-rate deviation
([50,60) or (100,120]) and 25 for a severe one (< 50 or > 120); subtract
15 for blood oxygen in [90,95) and 30 below 90; subtract 10 for a moderate
temperature deviation ([35.5,36.1) or (37.2,38.0]) and 20 for a severe one
(< 35.5 or > 38.0); then clamp the result to [0,100]. -/
def spec_health_score (row : HealthRecord) : ℤ :=
  let p_hr : ℤ :=
    if (50 ≤ row.heart_rate ∧ row.heart_rate < 60) ∨
       (100 < row.heart_rate ∧ row.heart_rate ≤ 120) then 10
    else if row.heart_rate < 50 ∨ 120 < row.heart_rate then 25
    else 0
  let p_bo : ℤ :=
    if 90 ≤ row.blood_oxygen ∧ row.blood_oxygen < 95 then 15
    else if row.blood_oxygen < 90 then 30
    else 0
  let p_t : ℤ :=
    if (35.5 ≤ row.temperature ∧ row.temperature < 36.1) ∨
       (37.2 < row.temperature ∧ row.temperature ≤ 38.0) then 10
    else if row.temperature < 35.5 ∨ 38.0 < row.temperature then 20
    else 0
  max 0 (min 100 (100 - (p_hr + p_bo + p_t)))

theorem hrPenalty_spec (hr : ℚ) :
    hrPenalty hr =
      (if (50 ≤ hr ∧ hr < 60) ∨ (100 < hr ∧ hr ≤ 120) then (10 : ℤ)
       else if hr < 50 ∨ 120 < hr then 25
       else 0) := by
  unfold hrPenalty
  rcases lt_or_le hr 50 with c1 | c1
  · have hA : ¬(60 ≤ hr ∧ hr ≤ 100) := by rintro ⟨h, -⟩; linarith
    have hM : ¬((50 ≤ hr ∧ hr < 60) ∨ (100 < hr ∧ hr ≤ 120)) := by
      rintro (⟨h, -⟩ | ⟨h, -⟩) <;> linarith
    rw [if_neg hA, if_neg hM, if_neg hM, if_pos (Or.inl c1)]
  · rcases lt_or_le hr 60 with c2 | c2
    · have hA : ¬(60 ≤ hr ∧ hr ≤ 100) := by rintro ⟨h, -⟩; linarith
      have hM : (50 ≤ hr ∧ hr < 60) ∨ (100 < hr ∧ hr ≤ 120) := Or.inl ⟨c1, c2⟩
      rw [if_neg hA, if_pos hM, if_pos hM]
    · rcases le_or_lt hr 100 with c3 | c3
      · have hM : ¬((50 ≤ hr ∧ hr < 60) ∨ (100 < hr ∧ hr ≤ 120)) := by
          rintro (⟨-, h⟩ | ⟨h, -⟩) <;> linarith
        have hS : ¬(hr < 50 ∨ 120 < hr) := by rintro (h | h) <;> linarith
        rw [if_pos ⟨c2, c3⟩, if_neg hM, if_neg hS]
      · rcases le_or_lt hr 120 with c4 | c4
        · have hA : ¬(60 ≤ hr ∧ hr ≤ 100) := by rintro ⟨-, h⟩; linarith
          have hM : (50 ≤ hr ∧ hr < 60) ∨ (100 < hr ∧ hr ≤ 120) :=
            Or.inr ⟨c3, c4⟩
          rw [if_neg hA, if_pos hM, if_pos hM]
        · have hA : ¬(60 ≤ hr ∧ hr ≤ 100) := by rintro ⟨-, h⟩; linarith
          have hM : ¬((50 ≤ hr ∧ hr < 60) ∨ (100 < hr ∧ hr ≤ 120)) := by
            rintro (⟨-, h⟩ | ⟨-, h⟩) <;> linarith
          rw [if_neg hA, if_neg hM, if_neg hM, if_pos (Or.inr c4)]

theorem spo2Penalty_spec (bo : ℚ) :
    spo2Penalty bo =
      (if 90 ≤ bo ∧ bo < 95 then (15 : ℤ)
       else if bo < 90 then 30
       else 0) := by
  unfold spo2Penalty
  rcases lt_or_le bo 90 with c1 | c1
  · have hA : ¬bo ≥ 95 := by linarith
    have hM : ¬(90 ≤ bo ∧ bo < 95) := by rintro ⟨h, -⟩; linarith
    rw [if_neg hA, if_neg hM, if_neg hM, if_pos c1]
  · rcases lt_or_le bo 95 with c2 | c2
    · have hA : ¬bo ≥ 95 := by linarith
      rw [if_neg hA, if_pos ⟨c1, c2⟩, if_pos ⟨c1, c2⟩]
    · have hM : ¬(90 ≤ bo ∧ bo < 95) := by rintro ⟨-, h⟩; linarith
      have hS : ¬bo < 90 := by linarith
      rw [if_pos c2, if_neg hM, if_neg hS]

theorem tempPenalty_spec (t : ℚ) :
    tempPenalty t =
      (if (35.5 ≤ t ∧ t < 36.1) ∨ (37.2 < t ∧ t ≤ 38.0) then (10 : ℤ)
       else if t < 35.5 ∨ 38.0 < t then 20
       else 0) := by
  unfold tempPenalty
  rcases lt_or_le t 35.5 with c1 | c1
  · have hA : ¬((36.1 : ℚ) ≤ t ∧ t ≤ 37.2) := by rintro ⟨h, -⟩; linarith
    have hM : ¬(((35.5 : ℚ) ≤ t ∧ t < 36.1) ∨ ((37.2 : ℚ) < t ∧ t ≤ 38.0)) := by
      rintro (⟨h, -⟩ | ⟨h, -⟩) <;> linarith
    rw [if_neg hA, if_neg hM, if_neg hM, if_pos (Or.inl c1)]
  · rcases lt_or_le t 36.1 with c2 | c2
    · have hA : ¬((36.1 : ℚ) ≤ t ∧ t ≤ 37.2) := by rintro ⟨h, -⟩; linarith
      have hM : ((35.5 : ℚ) ≤ t ∧ t < 36.1) ∨ ((37.2 : ℚ) < t ∧ t ≤ 38.0) :=
        Or.inl ⟨c1, c2⟩
      rw [if_neg hA, if_pos hM, if_pos hM]
    · rcases le_or_lt t 37.2 with c3 | c3
      · have hM : ¬(((35.5 : ℚ) ≤ t ∧ t < 36.1) ∨ ((37.2 : ℚ) < t ∧ t ≤ 38.0)) := by
          rintro (⟨-, h⟩ | ⟨h, -⟩) <;> linarith
        have hS : ¬(t < 35.5 ∨ (38.0 : ℚ) < t) := by
          rintro (h | h) <;> linarith
        rw [if_pos ⟨c2, c3⟩, if_neg hM, if_neg hS]
      · rcases le_or_lt t 38.0 with c4 | c4
        · have hA : ¬((36.1 : ℚ) ≤ t ∧ t ≤ 37.2) := by rintro ⟨-, h⟩; linarith
          have hM : ((35.5 : ℚ) ≤ t ∧ t < 36.1) ∨ ((37.2 : ℚ) < t ∧ t ≤ 38.0) :=
            Or.inr ⟨c3, c4⟩
          rw [if_neg hA, if_pos hM, if_pos hM]
        · have hA : ¬((36.1 : ℚ) ≤ t ∧ t ≤ 37.2) := by rintro ⟨-, h⟩; linarith
          have hM : ¬(((35.5 : ℚ) ≤ t ∧ t < 36.1) ∨ ((37.2 : ℚ) < t ∧ t ≤ 38.0)) := by
            rintro (⟨-, h⟩ | ⟨-, h⟩) <;> linarith
          rw [if_neg hA, if_neg hM, if_neg hM, if_pos (Or.inr c4)]

/-- C1: for every record with numeric heart rate, blood oxygen and
temperature, `calculate_health_score` equals the reference definition of
section 4.1 of the spec (band penalties summed and clamped to [0,100]). -/
theorem calculate_health_score_eq_spec (row : HealthRecord) :
    calculate_health_score row = spec_health_score row := by
  rw [calculate_health_score_decomp]
  unfold spec_health_score
  rw [hrPenalty_spec, spo2Penalty_spec, tempPenalty_spec]

/-- Per-row body of `HealthRiskClassifier.create_risk_labels` from
`src/core/ml_models.py`: accumulate a risk score over the three channels,
then classify it as 2 (High), 1 (Medium) or 0 (Low). -/
def create_risk_label (row : HealthRecord) : ℕ :=
  let risk_score : ℕ := 0
  let risk_score : ℕ :=
    if row.heart_rate < 50 ∨ 120 < row.heart_rate then risk_score + 2
    else if row.heart_rate < 60 ∨ 100 < row.heart_rate then risk_score + 1
    else risk_score
  let risk_score : ℕ :=
    if row.blood_oxygen < 90 then risk_score + 2
    else if row.blood_oxygen < 95 then risk_score + 1
    else risk_score
  let risk_score : ℕ :=
    if row.temperature < 35.5 ∨ 38.0 < row.temperature then risk_score + 2
    else if row.temperature < 36.1 ∨ 37.5 < row.temperature then risk_score + 1
    else risk_score
  if 4 ≤ risk_score then 2
  else if 2 ≤ risk_score then 1
  else 0

/-- Heart-rate contribution to the classifier's risk score (0 = normal
band, 1 = moderate band, 2 = severe band). -/
def hrPoints (hr : ℚ) : ℕ :=
  if hr < 50 ∨ 120 < hr then 2
  else if hr < 60 ∨ 100 < hr then 1
  else 0

/-- Blood-oxygen contribution to the classifier's risk score. -/
def spo2Points (bo : ℚ) : ℕ :=
  if bo < 90 then 2
  else if bo < 95 then 1
  else 0

/-- Temperature contribution to the classifier's risk score.  Note the
moderate cutoff 37.5, unlike the 37.2 used by the health score. -/
def tempPoints (t : ℚ) : ℕ :=
  if t < 35.5 ∨ 38.0 < t then 2
  else if t < 36.1 ∨ 37.5 < t then 1
  else 0

/-- Final tier of the classifier as a function of the risk score. -/
def riskTier (n : ℕ) : ℕ :=
  if 4 ≤ n then 2
  else if 2 ≤ n then 1
  else 0

/-- The classifier label decomposes as the tier of the sum of the three
per-channel point contributions. -/
theorem create_risk_label_decomp (row : HealthRecord) :
    create_risk_label row =
      riskTier (hrPoints row.heart_rate + spo2Points row.blood_oxygen +
        tempPoints row.temperature) := by
  simp only [create_risk_label, riskTier, hrPoints, spo2Points, tempPoints]
  split_ifs <;> omega

/-- Reference definition of the risk label as worded in section 4.2 of the
spec: +2 points for a severe deviation and +1 for a moderate one on each
channel, with the moderate temperature band (37.5, 38.0], then tier by
risk score ≥ 4 (High = 2), ≥ 2 (Medium = 1), else Low = 0. -/
def spec_risk_label (row : HealthRecord) : ℕ :=
  let p_hr : ℕ :=
    if row.heart_rate < 50 ∨ 120 < row.heart_rate then 2
    else if (50 ≤ row.heart_rate ∧ row.heart_rate < 60) ∨
            (100 < row.heart_rate ∧ row.heart_rate ≤ 120) then 1
    else 0
  let p_bo : ℕ :=
    if row.blood_oxygen < 90 then 2
    else if 90 ≤ row.blood_oxygen ∧ row.blood_oxygen < 95 then 1
    else 0
  let p_t : ℕ :=
    if row.temperature < 35.5 ∨ 38.0 < row.temperature then 2
    else if (35.5 ≤ row.temperature ∧ row.temperature < 36.1) ∨
            (37.5 < row.temperature ∧ row.temperature ≤ 38.0) then 1
    else 0
  if 4 ≤ p_hr + p_bo + p_t then 2
  else if 2 ≤ p_hr + p_bo + p_t then 1
  else 0

theorem hrPoints_spec (hr : ℚ) :
    hrPoints hr =
      (if hr < 50 ∨ 120 < hr then 2
       else if (50 ≤ hr ∧ hr < 60) ∨ (100 < hr ∧ hr ≤ 120) then 1
       else 0) := by
  unfold hrPoints
  rcases lt_or_le hr 50 with c1 | c1
  · rw [if_pos (Or.inl c1), if_pos (Or.inl c1)]
  · rcases lt_or_le hr 60 with c2 | c2
    · have hS : ¬(hr < 50 ∨ 120 < hr) := by rintro (h | h) <;> linarith
      rw [if_neg hS, if_pos (Or.inl c2), if_neg hS, if_pos (Or.inl ⟨c1, c2⟩)]
    · rcases le_or_lt hr 100 with c3 | c3
      · have hS : ¬(hr < 50 ∨ 120 < hr) := by rintro (h | h) <;> linarith
        have hM : ¬(hr < 60 ∨ 100 < hr) := by rintro (h | h) <;> linarith
        have hM2 : ¬((50 ≤ hr ∧ hr < 60) ∨ (100 < hr ∧ hr ≤ 120)) := by
          rintro (⟨-, h⟩ | ⟨h, -⟩) <;> linarith
        rw [if_neg hS, if_neg hM, if_neg hS, if_neg hM2]
      · rcases le_or_lt hr 120 with c4 | c4
        · have hS : ¬(hr < 50 ∨ 120 < hr) := by rintro (h | h) <;> linarith
          rw [if_neg hS, if_pos (Or.inr c3), if_neg hS,
            if_pos (Or.inr ⟨c3, c4⟩)]
        · rw [if_pos (Or.inr c4), if_pos (Or.inr c4)]

theorem spo2Points_spec (bo : ℚ) :
    spo2Points bo =
      (if bo < 90 then 2
       else if 90 ≤ bo ∧ bo < 95 then 1
       else 0) := by
  unfold spo2Points
  rcases lt_or_le bo 90 with c1 | c1
  · rw [if_pos c1, if_pos c1]
  · rcases lt_or_le bo 95 with c2 | c2
    · have hS : ¬bo < 90 := not_lt.mpr c1
      rw [if_neg hS, if_pos c2, if_neg hS, if_pos ⟨c1, c2⟩]
    · have hS : ¬bo < 90 := by linarith
      have hM : ¬bo < 95 := not_lt.mpr c2
      have hM2 : ¬(90 ≤ bo ∧ bo < 95) := by rintro ⟨-, h⟩; linarith
      rw [if_neg hS, if_neg hM, if_neg hS, if_neg hM2]

theorem tempPoints_spec (t : ℚ) :
    tempPoints t =
      (if t < 35.5 ∨ 38.0 < t then 2
       else if (35.5 ≤ t ∧ t < 36.1) ∨ (37.5 < t ∧ t ≤ 38.0) then 1
       else 0) := by
  unfold tempPoints
  rcases lt_or_le t 35.5 with c1 | c1
  · rw [if_pos (Or.inl c1), if_pos (Or.inl c1)]
  · rcases lt_or_le t 36.1 with c2 | c2
    · have hS : ¬(t < 35.5 ∨ (38.0 : ℚ) < t) := by rintro (h | h) <;> linarith
      rw [if_neg hS, if_pos (Or.inl c2), if_neg hS, if_pos (Or.inl ⟨c1, c2⟩)]
    · rcases le_or_lt t 37.5 with c3 | c3
      · have hS : ¬(t < 35.5 ∨ (38.0 : ℚ) < t) := by rintro (h | h) <;> linarith
        have hM : ¬(t < 36.1 ∨ (37.5 : ℚ) < t) := by rintro (h | h) <;> linarith
        have hM2 : ¬(((35.5 : ℚ) ≤ t ∧ t < 36.1) ∨
            ((37.5 : ℚ) < t ∧ t ≤ 38.0)) := by
          rintro (⟨-, h⟩ | ⟨h, -⟩) <;> linarith
        rw [if_neg hS, if_neg hM, if_neg hS, if_neg hM2]
      · rcases le_or_lt t 38.0 with c4 | c4
        · have hS : ¬(t < 35.5 ∨ (38.0 : ℚ) < t) := by
            rintro (h | h) <;> linarith
          rw [if_neg hS, if_pos (Or.inr c3), if_neg hS,
            if_pos (Or.inr ⟨c3, c4⟩)]
        · rw [if_pos (Or.inr c4), if_pos (Or.inr c4)]

/-- C2: for every record with numeric vitals, the per-row classifier label
equals the reference definition of section 4.2 of the spec, including the
moderate temperature cutoff at 37.5 rather than the 37.2 of the health
score. -/
theorem create_risk_label_eq_spec (row : HealthRecord) :
    create_risk_label row = spec_risk_label row := by
  rw [create_risk_label_decomp]
  unfold spec_risk_label riskTier
  rw [hrPoints_spec, spo2Points_spec, tempPoints_spec]

/-- C3: the health score is always in [0,100] and equals the clamp of 100
minus the sum of the per-channel penalties, even when all three channels
are simultaneously in their severe bands. -/
theorem calculate_health_score_clamped (row : HealthRecord) :
    0 ≤ calculate_health_score row ∧ calculate_health_score row ≤ 100 ∧
      calculate_health_score row =
        max 0 (min 100 (100 - (hrPenalty row.heart_rate +
          spo2Penalty row.blood_oxygen + tempPenalty row.temperature))) := by
  refine ⟨?_, ?_, calculate_health_score_decomp row⟩ <;>
    rw [calculate_health_score_decomp]
  · exact le_max_left 0 _
  · exact max_le (by norm_num) (min_le_left _ _)

theorem riskTier_mono {a b : ℕ} (h : a ≤ b) : riskTier a ≤ riskTier b := by
  unfold riskTier
  split_ifs <;> omega

/-- C4: the classifier is monotonic in per-channel severity.  The
per-channel point value encodes the band (0 = normal, 1 = moderate,
2 = severe), so moving one channel from its normal band into the moderate
band, or from the moderate band into the severe band, while the other two
channels are held fixed, never decreases the risk tier (Low = 0 <
Medium = 1 < High = 2). -/
theorem create_risk_label_monotone (r r' : HealthRecord)
    (h : (r'.blood_oxygen = r.blood_oxygen ∧ r'.temperature = r.temperature ∧
            hrPoints r.heart_rate ≤ hrPoints r'.heart_rate) ∨
         (r'.heart_rate = r.heart_rate ∧ r'.temperature = r.temperature ∧
            spo2Points r.blood_oxygen ≤ spo2Points r'.blood_oxygen) ∨
         (r'.heart_rate = r.heart_rate ∧ r'.blood_oxygen = r.blood_oxygen ∧
            tempPoints r.temperature ≤ tempPoints r'.temperature)) :
    create_risk_label r ≤ create_risk_label r' := by
  rw [create_risk_label_decomp, create_risk_label_decomp]
  rcases h with ⟨h1, h2, h3⟩ | ⟨h1, h2, h3⟩ | ⟨h1, h2, h3⟩ <;>
    rw [h1, h2] <;> exact riskTier_mono (by omega)

/-- Witness for C4: worsening the heart rate of a fully normal record from
70 (normal band) to 55 (moderate band) does not decrease the tier. -/
theorem create_risk_label_monotone_witness :
    ((⟨55, 98, 36.5⟩ : HealthRecord).blood_oxygen =
        (⟨70, 98, 36.5⟩ : HealthRecord).blood_oxygen ∧
      (⟨55, 98, 36.5⟩ : HealthRecord).temperature =
        (⟨70, 98, 36.5⟩ : HealthRecord).temperature ∧
      hrPoints (⟨70, 98, 36.5⟩ : HealthRecord).heart_rate ≤
        hrPoints (⟨55, 98, 36.5⟩ : HealthRecord).heart_rate) ∧
      create_risk_label ⟨70, 98, 36.5⟩ ≤ create_risk_label ⟨55, 98, 36.5⟩ := by
  have hp : (⟨55, 98, 36.5⟩ : HealthRecord).blood_oxygen =
        (⟨70, 98, 36.5⟩ : HealthRecord).blood_oxygen ∧
      (⟨55, 98, 36.5⟩ : HealthRecord).temperature =
        (⟨70, 98, 36.5⟩ : HealthRecord).temperature ∧
      hrPoints (⟨70, 98, 36.5⟩ : HealthRecord).heart_rate ≤
        hrPoints (⟨55, 98, 36.5⟩ : HealthRecord).heart_rate :=
    ⟨rfl, rfl, by norm_num [hrPoints]⟩
  exact ⟨hp, create_risk_label_monotone ⟨70, 98, 36.5⟩ ⟨55, 98, 36.5⟩
    (Or.inl hp)⟩

theorem hrPenalty_bounds (hr : ℚ) : 0 ≤ hrPenalty hr ∧ hrPenalty hr ≤ 25 := by
  unfold hrPenalty
  split_ifs <;> norm_num

theorem spo2Penalty_bounds (bo : ℚ) :
    0 ≤ spo2Penalty bo ∧ spo2Penalty bo ≤ 30 := by
  unfold spo2Penalty
  split_ifs <;> norm_num

theorem tempPenalty_bounds (t : ℚ) :
    0 ≤ tempPenalty t ∧ tempPenalty t ≤ 20 := by
  unfold tempPenalty
  split_ifs <;> norm_num

/-- C10: the maximum total penalty is 25 + 30 + 20 = 75, so the health
score never drops below 25: the lower clamp at 0 is never exercised and
the reachable range is [25,100], with both ends attained. -/
theorem calculate_health_score_range :
    (∀ row : HealthRecord,
        25 ≤ calculate_health_score row ∧ calculate_health_score row ≤ 100) ∧
      (∃ row : HealthRecord, calculate_health_score row = 25) ∧
      (∃ row : HealthRecord, calculate_health_score row = 100) := by
  refine ⟨?_, ⟨⟨40, 80, 40⟩, ?_⟩, ⟨⟨75, 98, 36.5⟩, ?_⟩⟩
  · intro row
    have h1 := hrPenalty_bounds row.heart_rate
    have h2 := spo2Penalty_bounds row.blood_oxygen
    have h3 := tempPenalty_bounds row.temperature
    rw [calculate_health_score_decomp]
    refine ⟨le_max_of_le_right (le_min (by norm_num) (by omega)), ?_⟩
    exact max_le (by norm_num) (min_le_left _ _)
  · norm_num [calculate_health_score]
  · norm_num [calculate_health_score]

/-- C9: heart rate exactly 50 and exactly 120 fall in the moderate band of
both functions: penalty 10 in the health score and 1 point in the
classifier, feeding into the clamp and the tier respectively. -/
theorem heart_rate_boundary_moderate (row : HealthRecord)
    (h : row.heart_rate = 50 ∨ row.heart_rate = 120) :
    hrPenalty row.heart_rate = 10 ∧ hrPoints row.heart_rate = 1 ∧
      calculate_health_score row =
        max 0 (min 100 (90 - (spo2Penalty row.blood_oxygen +
          tempPenalty row.temperature))) ∧
      create_risk_label row =
        riskTier (1 + spo2Points row.blood_oxygen +
          tempPoints row.temperature) := by
  have hp : hrPenalty row.heart_rate = 10 := by
    rcases h with h | h <;> rw [h] <;> norm_num [hrPenalty]
  have hq : hrPoints row.heart_rate = 1 := by
    rcases h with h | h <;> rw [h] <;> norm_num [hrPoints]
  refine ⟨hp, hq, ?_, ?_⟩
  · rw [calculate_health_score_decomp, hp]
    have heq : (100 : ℤ) - (10 + spo2Penalty row.blood_oxygen +
        tempPenalty row.temperature) =
        90 - (spo2Penalty row.blood_oxygen + tempPenalty row.temperature) := by
      ring
    rw [heq]
  · rw [create_risk_label_decomp, hq]

/-- Witness for C9: the record (50, 98, 36.5) has its heart rate at the
lower boundary and lands in the moderate band. -/
theorem heart_rate_boundary_moderate_witness :
    ((⟨50, 98, 36.5⟩ : HealthRecord).heart_rate = 50 ∨
        (⟨50, 98, 36.5⟩ : HealthRecord).heart_rate = 120) ∧
      (hrPenalty (⟨50, 98, 36.5⟩ : HealthRecord).heart_rate = 10 ∧
        hrPoints (⟨50, 98, 36.5⟩ : HealthRecord).heart_rate = 1 ∧
        calculate_health_score ⟨50, 98, 36.5⟩ =
          max 0 (min 100 (90 -
            (spo2Penalty (⟨50, 98, 36.5⟩ : HealthRecord).blood_oxygen +
              tempPenalty (⟨50, 98, 36.5⟩ : HealthRecord).temperature))) ∧
        create_risk_label ⟨50, 98, 36.5⟩ =
          riskTier (1 +
            spo2Points (⟨50, 98, 36.5⟩ : HealthRecord).blood_oxygen +
            tempPoints (⟨50, 98, 36.5⟩ : HealthRecord).temperature)) :=
  ⟨Or.inl rfl, heart_rate_boundary_moderate ⟨50, 98, 36.5⟩ (Or.inl rfl)⟩

/-- Message appended when the heart rate is below 60. -/
def hrLowMsg : String :=
  "⚠️ Your heart rate is low. Consider consulting a healthcare provider if this persists."

/-- Companion tip appended together with `hrLowMsg`. -/
def hrLowTipMsg : String := "💡 Avoid sudden strenuous activities."

/-- Message appended when the heart rate is above 100. -/
def hrHighMsg : String :=
  "⚠️ Your heart rate is elevated. Try relaxation techniques like deep breathing."

/-- Companion tip appended together with `hrHighMsg`. -/
def hrHighTipMsg : String :=
  "💡 Reduce caffeine intake and ensure adequate hydration."

/-- Message appended when blood oxygen is below 95. -/
def spo2LowMsg : String :=
  "⚠️ Blood oxygen is below normal. Ensure good ventilation and avoid strenuous activities."

/-- Urgent message appended when blood oxygen is below 90. -/
def spo2CriticalMsg : String :=
  "🚨 URGENT: Seek immediate medical attention - oxygen levels critically low!"

/-- Message appended when the temperature exceeds 37.5. -/
def tempHighMsg : String :=
  "⚠️ Elevated temperature detected. Stay hydrated and monitor closely."

/-- Urgent message appended when the temperature exceeds 38.0. -/
def feverMsg : String :=
  "🚨 Fever detected. Consider taking fever-reducing medication and consult a doctor."

/-- Message appended when the temperature is below 36.0. -/
def tempLowMsg : String :=
  "⚠️ Body temperature is low. Warm up and monitor for hypothermia symptoms."

/-- Message appended when the activity level is low. -/
def activityLowMsg : String :=
  "💪 Try to increase physical activity gradually - aim for 30 minutes daily."

/-- Message appended for high activity combined with elevated risk. -/
def activityHighMsg : String :=
  "⚠️ Consider moderating intense activity given your current health metrics."

/-- Urgent message appended for the High Risk level. -/
def highRiskMsg : String :=
  "🚨 HIGH RISK ALERT: Schedule an immediate consultation with your healthcare provider."

/-- Second message appended for the High Risk level. -/
def emergencyMsg : String :=
  "📱 Consider emergency services if symptoms worsen."

/-- Message appended for the Medium Risk level. -/
def mediumRiskMsg : String :=
  "⚠️ Schedule a check-up with your healthcare provider within 24-48 hours."

/-- Second message appended for the Medium Risk level. -/
def monitorVitalsMsg : String := "📊 Continue monitoring your vitals closely."

/-- First message appended for every other risk level. -/
def lowRiskMsg : String :=
  "✅ Your vitals look good! Maintain healthy lifestyle habits."

/-- Second message appended for every other risk level. -/
def hydrationMsg : String := "💧 Stay hydrated and get adequate rest."

/-- Message appended when the anomaly status is Anomaly. -/
def anomalyMsg : String :=
  "⚠️ Unusual pattern detected in your health data. Monitor closely and consult a doctor if concerned."

/-- The warning-class messages of the engine (the ones the source prefixes
with the warning sign). -/
def warningMsgs : List String :=
  [hrLowMsg, hrHighMsg, spo2LowMsg, tempHighMsg, tempLowMsg,
    activityHighMsg, mediumRiskMsg, anomalyMsg]

/-- The urgent-class messages of the engine (the ones the source prefixes
with the siren sign). -/
def urgentMsgs : List String := [spo2CriticalMsg, feverMsg, highRiskMsg]

/-- A health-data dict as passed around the engine: every key may be
absent.  A Python subscript `row[k]` on an absent key raises `KeyError`,
while `row.get(k, d)` yields the default `d`. -/
structure RawRecord where
  heart_rate : Option ℚ
  blood_oxygen : Option ℚ
  temperature : Option ℚ
  activity_level : Option String
deriving DecidableEq, Repr

/-- `HealthRecommendationEngine.generate_recommendations` from
`src/core/ml_models.py`: a rule cascade over the health-data dict, the
anomaly status and the risk level, each rule appending zero or more
messages.  Dict reads use `.get` with defaults 0, 100, 36.5 and
moderate. -/
def generate_recommendations (health_data : RawRecord)
    (anomaly_status risk_level : String) : List String :=
  let hr := health_data.heart_rate.getD 0
  let hr_recs : List String :=
    if hr < 60 then [hrLowMsg, hrLowTipMsg]
    else if 100 < hr then [hrHighMsg, hrHighTipMsg]
    else []
  let spo2 := health_data.blood_oxygen.getD 100
  let spo2_recs : List String :=
    if spo2 < 95 then
      [spo2LowMsg] ++ (if spo2 < 90 then [spo2CriticalMsg] else [])
    else []
  let temp := health_data.temperature.getD 36.5
  let temp_recs : List String :=
    if 37.5 < temp then
      [tempHighMsg] ++ (if 38.0 < temp then [feverMsg] else [])
    else if temp < 36.0 then [tempLowMsg]
    else []
  let activity := health_data.activity_level.getD "moderate"
  let activity_recs : List String :=
    if activity = "low" then [activityLowMsg]
    else if activity = "high" ∧ risk_level ∈ ["Medium Risk", "High Risk"] then
      [activityHighMsg]
    else []
  let risk_recs : List String :=
    if risk_level = "High Risk" then [highRiskMsg, emergencyMsg]
    else if risk_level = "Medium Risk" then [mediumRiskMsg, monitorVitalsMsg]
    else [lowRiskMsg, hydrationMsg]
  let anomaly_recs : List String :=
    if anomaly_status = "Anomaly" then [anomalyMsg]
    else []
  hr_recs ++ spo2_recs ++ temp_recs ++ activity_recs ++ risk_recs ++
    anomaly_recs

/-- A Python value stored under a dict key: a number, or a non-numeric
object carrying the name of its type. -/
inductive PyVal where
  | num : ℚ → PyVal
  | obj : String → PyVal
deriving DecidableEq, Repr

/-- A health-data dict whose values may be of any Python type: every key
may be absent and every present value may be non-numeric. -/
structure PyRecord where
  heart_rate : Option PyVal
  blood_oxygen : Option PyVal
  temperature : Option PyVal
  activity_level : Option String
deriving DecidableEq, Repr

/-- A Python subscript on a possibly absent key: `KeyError` when the key
is absent. -/
def pySub (v : Option PyVal) (key : String) : Except String PyVal :=
  match v with
  | some x => Except.ok x
  | none => Except.error ("KeyError: " ++ key)

/-- A Python ordering comparison between a value and a number:
`TypeError` when the value is not a number. -/
def pyCmp (v : PyVal) : Except String ℚ :=
  match v with
  | PyVal.num q => Except.ok q
  | PyVal.obj tag => Except.error ("TypeError: " ++ tag)

/-- `calculate_health_score` on a raw dict.  Each channel block starts by
subscripting its key and comparing the value with a number, so the
function stops with `KeyError` on the first absent channel and with
`TypeError` on the first non-numeric one, in the read order heart_rate,
blood_oxygen, temperature; numeric values of any magnitude are scored
without validation. -/
def calculate_health_score_py (row : PyRecord) : Except String ℤ := do
  let hrv ← pySub row.heart_rate "heart_rate"
  let hr ← pyCmp hrv
  let bov ← pySub row.blood_oxygen "blood_oxygen"
  let bo ← pyCmp bov
  let tv ← pySub row.temperature "temperature"
  let t ← pyCmp tv
  pure (calculate_health_score ⟨hr, bo, t⟩)

/-- The per-row classifier body on a raw dict: same access pattern as the
score, hence the same `KeyError` and `TypeError` behavior, and no domain
validation on numbers. -/
def create_risk_label_py (row : PyRecord) : Except String ℕ := do
  let hrv ← pySub row.heart_rate "heart_rate"
  let hr ← pyCmp hrv
  let bov ← pySub row.blood_oxygen "blood_oxygen"
  let bo ← pyCmp bov
  let tv ← pySub row.temperature "temperature"
  let t ← pyCmp tv
  pure (create_risk_label ⟨hr, bo, t⟩)

/-- The recommendation engine on a raw dict: every numeric key is read
with `.get` and a default (0, 100, 36.5), so an absent key never fails —
the rule cascade then runs on the resulting numbers.  A present
non-numeric value still raises `TypeError` at the first comparison of its
rule block, in the read order heart_rate, blood_oxygen, temperature. -/
def generate_recommendations_py (health_data : PyRecord)
    (anomaly_status risk_level : String) : Except String (List String) := do
  let hr ← pyCmp (health_data.heart_rate.getD (PyVal.num 0))
  let bo ← pyCmp (health_data.blood_oxygen.getD (PyVal.num 100))
  let t ← pyCmp (health_data.temperature.getD (PyVal.num 36.5))
  pure (generate_recommendations
    ⟨some hr, some bo, some t, health_data.activity_level⟩
    anomaly_status risk_level)

/-- A numeric record with every absent key replaced by the default the
recommendation engine reads it with. -/
def fillDefaults (row : RawRecord) : RawRecord :=
  ⟨some (row.heart_rate.getD 0), some (row.blood_oxygen.getD 100),
    some (row.temperature.getD 36.5),
    some (row.activity_level.getD "moderate")⟩

theorem recs_length_bounds (hd : RawRecord) (a l : String) :
    2 ≤ (generate_recommendations hd a l).length ∧
      (generate_recommendations hd a l).length ≤ 10 := by
  have h1 : (if hd.heart_rate.getD 0 < 60 then [hrLowMsg, hrLowTipMsg]
      else if 100 < hd.heart_rate.getD 0 then [hrHighMsg, hrHighTipMsg]
      else ([] : List String)).length ≤ 2 := by
    split_ifs <;> simp
  have h2 : (if hd.blood_oxygen.getD 100 < 95 then
        [spo2LowMsg] ++
          (if hd.blood_oxygen.getD 100 < 90 then [spo2CriticalMsg] else [])
      else ([] : List String)).length ≤ 2 := by
    split_ifs <;> simp
  have h3 : (if 37.5 < hd.temperature.getD 36.5 then
        [tempHighMsg] ++
          (if 38.0 < hd.temperature.getD 36.5 then [feverMsg] else [])
      else if hd.temperature.getD 36.5 < 36.0 then [tempLowMsg]
      else ([] : List String)).length ≤ 2 := by
    split_ifs <;> simp
  have h4 : (if hd.activity_level.getD "moderate" = "low" then
        [activityLowMsg]
      else if hd.activity_level.getD "moderate" = "high" ∧
          l ∈ ["Medium Risk", "High Risk"] then [activityHighMsg]
      else ([] : List String)).length ≤ 1 := by
    split_ifs <;> simp
  have h5 : (if l = "High Risk" then [highRiskMsg, emergencyMsg]
      else if l = "Medium Risk" then [mediumRiskMsg, monitorVitalsMsg]
      else [lowRiskMsg, hydrationMsg]).length = 2 := by
    split_ifs <;> simp
  have h6 : (if a = "Anomaly" then [anomalyMsg]
      else ([] : List String)).length ≤ 1 := by
    split_ifs <;> simp
  simp only [generate_recommendations, List.length_append]
  omega

/-- C5 (amended): the fail-fast policy holds only in part.  (1) With any
required numeric channel missing, and every present channel numeric,
score and classify fail fast with a `KeyError` naming the first missing
channel in the read order heart_rate, blood_oxygen, temperature.  (2) The
recommendation engine never rejects a
record over a missing key: on every record it behaves exactly as if each
absent key carried its `.get` default (heart_rate 0, blood_oxygen 100,
temperature 36.5, activity_level moderate).  (3) When the first channel
of the read order that is not yet known numeric holds a non-numeric
value, all three functions fail fast with a bare `TypeError`, not a
descriptive validation error.  (4) There is no out-of-domain validation:
on an all-numeric record each function plainly succeeds, whatever the
values. -/
theorem missing_field_behavior :
    (∀ row : PyRecord,
        (∀ tag, row.heart_rate ≠ some (PyVal.obj tag)) →
        (∀ tag, row.blood_oxygen ≠ some (PyVal.obj tag)) →
        (∀ tag, row.temperature ≠ some (PyVal.obj tag)) →
        row.heart_rate = none ∨ row.blood_oxygen = none ∨
          row.temperature = none →
        ∃ key : String,
          ((row.heart_rate = none ∧ key = "heart_rate") ∨
            ((∃ q, row.heart_rate = some (PyVal.num q)) ∧
              row.blood_oxygen = none ∧ key = "blood_oxygen") ∨
            ((∃ q, row.heart_rate = some (PyVal.num q)) ∧
              (∃ q, row.blood_oxygen = some (PyVal.num q)) ∧
              row.temperature = none ∧ key = "temperature")) ∧
          calculate_health_score_py row =
            Except.error ("KeyError: " ++ key) ∧
          create_risk_label_py row = Except.error ("KeyError: " ++ key)) ∧
    (∀ (row : RawRecord) (a l : String),
        generate_recommendations row a l =
          generate_recommendations (fillDefaults row) a l) ∧
    (∀ (row : PyRecord) (a l tag : String),
        (row.heart_rate = some (PyVal.obj tag) ∨
          ((∃ q, row.heart_rate = some (PyVal.num q)) ∧
            row.blood_oxygen = some (PyVal.obj tag)) ∨
          ((∃ q, row.heart_rate = some (PyVal.num q)) ∧
            (∃ q, row.blood_oxygen = some (PyVal.num q)) ∧
            row.temperature = some (PyVal.obj tag))) →
        calculate_health_score_py row =
            Except.error ("TypeError: " ++ tag) ∧
          create_risk_label_py row = Except.error ("TypeError: " ++ tag) ∧
          generate_recommendations_py row a l =
            Except.error ("TypeError: " ++ tag)) ∧
    (∀ (hr bo t : ℚ) (act : Option String) (a l : String),
        calculate_health_score_py
            ⟨some (PyVal.num hr), some (PyVal.num bo), some (PyVal.num t),
              act⟩ = Except.ok (calculate_health_score ⟨hr, bo, t⟩) ∧
          create_risk_label_py
            ⟨some (PyVal.num hr), some (PyVal.num bo), some (PyVal.num t),
              act⟩ = Except.ok (create_risk_label ⟨hr, bo, t⟩) ∧
          generate_recommendations_py
            ⟨some (PyVal.num hr), some (PyVal.num bo), some (PyVal.num t),
              act⟩ a l =
            Except.ok (generate_recommendations
              ⟨some hr, some bo, some t, act⟩ a l)) := by
  refine ⟨?_, ?_, ?_, ?_⟩
  · rintro ⟨hrf, bof, tf, af⟩ hn1 hn2 hn3 h
    rcases hrf with _ | v1
    · exact ⟨"heart_rate", Or.inl ⟨rfl, rfl⟩, rfl, rfl⟩
    · rcases v1 with q1 | tag1
      · rcases bof with _ | v2
        · exact ⟨"blood_oxygen",
            Or.inr (Or.inl ⟨⟨q1, rfl⟩, rfl, rfl⟩), rfl, rfl⟩
        · rcases v2 with q2 | tag2
          · rcases tf with _ | v3
            · exact ⟨"temperature",
                Or.inr (Or.inr ⟨⟨q1, rfl⟩, ⟨q2, rfl⟩, rfl, rfl⟩), rfl, rfl⟩
            · simp at h
          · exact absurd rfl (hn2 tag2)
      · exact absurd rfl (hn1 tag1)
  · rintro ⟨hrf, bof, tf, af⟩ a l
    cases hrf <;> cases bof <;> cases tf <;> cases af <;> rfl
  · rintro row a l tag h
    rcases h with h1 | ⟨⟨q1, h1⟩, h2⟩ | ⟨⟨q1, h1⟩, ⟨q2, h2⟩, h3⟩
    · refine ⟨?_, ?_, ?_⟩
      · simp only [calculate_health_score_py]
        rw [h1]
        rfl
      · simp only [create_risk_label_py]
        rw [h1]
        rfl
      · simp only [generate_recommendations_py]
        rw [h1]
        rfl
    · refine ⟨?_, ?_, ?_⟩
      · simp only [calculate_health_score_py]
        rw [h1, h2]
        rfl
      · simp only [create_risk_label_py]
        rw [h1, h2]
        rfl
      · simp only [generate_recommendations_py]
        rw [h1, h2]
        rfl
    · refine ⟨?_, ?_, ?_⟩
      · simp only [calculate_health_score_py]
        rw [h1, h2, h3]
        rfl
      · simp only [create_risk_label_py]
        rw [h1, h2, h3]
        rfl
      · simp only [generate_recommendations_py]
        rw [h1, h2, h3]
        rfl
  · intro hr bo t act a l
    exact ⟨rfl, rfl, rfl⟩

/-- Witness for C5 (amended) at a concrete record whose blood_oxygen key
is absent: the error names blood_oxygen, not heart_rate. -/
theorem missing_field_behavior_witness :
    (∀ tag, (⟨some (PyVal.num 75), none, some (PyVal.num 36.6), none⟩ :
        PyRecord).heart_rate ≠ some (PyVal.obj tag)) ∧
      (∀ tag, (⟨some (PyVal.num 75), none, some (PyVal.num 36.6), none⟩ :
        PyRecord).blood_oxygen ≠ some (PyVal.obj tag)) ∧
      (∀ tag, (⟨some (PyVal.num 75), none, some (PyVal.num 36.6), none⟩ :
        PyRecord).temperature ≠ some (PyVal.obj tag)) ∧
      ((⟨some (PyVal.num 75), none, some (PyVal.num 36.6), none⟩ :
          PyRecord).heart_rate = none ∨
        (⟨some (PyVal.num 75), none, some (PyVal.num 36.6), none⟩ :
          PyRecord).blood_oxygen = none ∨
        (⟨some (PyVal.num 75), none, some (PyVal.num 36.6), none⟩ :
          PyRecord).temperature = none) ∧
      ∃ key : String,
        (((⟨some (PyVal.num 75), none, some (PyVal.num 36.6), none⟩ :
              PyRecord).heart_rate = none ∧ key = "heart_rate") ∨
          ((∃ q, (⟨some (PyVal.num 75), none, some (PyVal.num 36.6),
                none⟩ : PyRecord).heart_rate = some (PyVal.num q)) ∧
            (⟨some (PyVal.num 75), none, some (PyVal.num 36.6), none⟩ :
              PyRecord).blood_oxygen = none ∧ key = "blood_oxygen") ∨
          ((∃ q, (⟨some (PyVal.num 75), none, some (PyVal.num 36.6),
                none⟩ : PyRecord).heart_rate = some (PyVal.num q)) ∧
            (∃ q, (⟨some (PyVal.num 75), none, some (PyVal.num 36.6),
                none⟩ : PyRecord).blood_oxygen = some (PyVal.num q)) ∧
            (⟨some (PyVal.num 75), none, some (PyVal.num 36.6), none⟩ :
              PyRecord).temperature = none ∧ key = "temperature")) ∧
        calculate_health_score_py
            ⟨some (PyVal.num 75), none, some (PyVal.num 36.6), none⟩ =
          Except.error ("KeyError: " ++ key) ∧
        create_risk_label_py
            ⟨some (PyVal.num 75), none, some (PyVal.num 36.6), none⟩ =
          Except.error ("KeyError: " ++ key) :=
  ⟨by simp, by simp, by simp, Or.inr (Or.inl rfl),
    missing_field_behavior.1
      ⟨some (PyVal.num 75), none, some (PyVal.num 36.6), none⟩
      (by simp) (by simp) (by simp) (Or.inr (Or.inl rfl))⟩

/-- C5 counterexample: on a record with no heart_rate key at all, the
recommendation engine does not fail fast with a validation error: it
silently substitutes the default 0 and even emits the low-heart-rate
warning for a channel that was never measured. -/
theorem recommend_defaults_counterexample :
    generate_recommendations ⟨none, some 98, some 36.6, some "moderate"⟩
        "Normal" "Low Risk" =
        [hrLowMsg, hrLowTipMsg, lowRiskMsg, hydrationMsg] ∧
      hrLowMsg ∈ generate_recommendations
        ⟨none, some 98, some 36.6, some "moderate"⟩ "Normal" "Low Risk" := by
  have h : generate_recommendations
      ⟨none, some 98, some 36.6, some "moderate"⟩ "Normal" "Low Risk" =
      [hrLowMsg, hrLowTipMsg, lowRiskMsg, hydrationMsg] := by
    norm_num [generate_recommendations]
    all_goals decide
  refine ⟨h, ?_⟩
  rw [h]
  simp

/-- C6 (amended): the number of recommendations is variable but always
between 2 and 10: the risk-level block appends two messages on every
path, so the output is never empty. -/
theorem generate_recommendations_length_range (hd : RawRecord)
    (a l : String) :
    2 ≤ (generate_recommendations hd a l).length ∧
      (generate_recommendations hd a l).length ≤ 10 :=
  recs_length_bounds hd a l

/-- C6 counterexample: no combination of record, anomaly status and risk
level makes the engine return an empty list. -/
theorem generate_recommendations_never_empty :
    ¬ ∃ (hd : RawRecord) (a l : String),
        generate_recommendations hd a l = [] := by
  rintro ⟨hd, a, l, h⟩
  have h2 := (recs_length_bounds hd a l).1
  rw [h] at h2
  simp at h2

/-- C7: on the record (heart rate 45, blood oxygen 88, temperature 39.0)
with status Anomaly and level High Risk, the engine returns nine messages,
at least the required five, including the low-heart-rate message, the
urgent critical-blood-oxygen message, the urgent fever message, the urgent
High-risk message and the anomaly message. -/
theorem recommend_critical_record :
    generate_recommendations ⟨some 45, some 88, some 39.0, none⟩
        "Anomaly" "High Risk" =
        [hrLowMsg, hrLowTipMsg, spo2LowMsg, spo2CriticalMsg, tempHighMsg,
          feverMsg, highRiskMsg, emergencyMsg, anomalyMsg] ∧
      5 ≤ (generate_recommendations ⟨some 45, some 88, some 39.0, none⟩
        "Anomaly" "High Risk").length ∧
      hrLowMsg ∈ generate_recommendations
        ⟨some 45, some 88, some 39.0, none⟩ "Anomaly" "High Risk" ∧
      spo2CriticalMsg ∈ generate_recommendations
        ⟨some 45, some 88, some 39.0, none⟩ "Anomaly" "High Risk" ∧
      feverMsg ∈ generate_recommendations
        ⟨some 45, some 88, some 39.0, none⟩ "Anomaly" "High Risk" ∧
      highRiskMsg ∈ generate_recommendations
        ⟨some 45, some 88, some 39.0, none⟩ "Anomaly" "High Risk" ∧
      anomalyMsg ∈ generate_recommendations
        ⟨some 45, some 88, some 39.0, none⟩ "Anomaly" "High Risk" := by
  have h : generate_recommendations ⟨some 45, some 88, some 39.0, none⟩
      "Anomaly" "High Risk" =
      [hrLowMsg, hrLowTipMsg, spo2LowMsg, spo2CriticalMsg, tempHighMsg,
        feverMsg, highRiskMsg, emergencyMsg, anomalyMsg] := by
    norm_num [generate_recommendations]
    all_goals decide
  refine ⟨h, ?_, ?_, ?_, ?_, ?_, ?_⟩ <;> rw [h] <;> simp

/-- C8: on the fully normal record (heart rate 75, blood oxygen 98,
temperature 36.6, moderate activity) with status Normal and level Low
Risk, the engine returns exactly the two Low-risk messages, neither of
which is a warning or urgent message. -/
theorem recommend_normal_record :
    generate_recommendations ⟨some 75, some 98, some 36.6, some "moderate"⟩
        "Normal" "Low Risk" = [lowRiskMsg, hydrationMsg] ∧
      lowRiskMsg ∉ warningMsgs ∧ lowRiskMsg ∉ urgentMsgs ∧
      hydrationMsg ∉ warningMsgs ∧ hydrationMsg ∉ urgentMsgs := by
  refine ⟨?_, by decide, by decide, by decide, by decide⟩
  norm_num [generate_recommendations]
  all_goals decide
